import Mathlib

/-!
# Verification of the role-aware financial assistant core

Shallow embedding of the retrieval / guardrail / calculator / workflow core
of the repository (files `src/retriever.py`, `src/guardrails.py`,
`src/agent.py`), together with theorems settling the specification claims.

Python strings are modelled as Lean `String`s (ASCII fragment of the
Unicode semantics of `re`, `str.strip`, `str.lower`), Python sets of
strings as Lean `List String` used up to membership, Python dicts with
string keys as ordered association lists (insertion order, as preserved by
`json.dumps`), and the external collaborators (FAISS similarity search,
the chat model) as function parameters.
-/

/-! ## Documents (`src/data.py`, metadata handling of `src/retriever.py`)

A stored document: `page_content` plus the metadata fields used by the
code.  The code reads metadata with `dict.get` and a default, so the
fields are `Option`-valued here. -/

structure Doc where
  content : String
  sensitivity : Option String
  source : Option String
  category : Option String
  year : Option Int
deriving DecidableEq, Repr

/-! ## Access policy (`SecureRetriever.get_allowed_sensitivities`) -/

/-- `SecureRetriever.get_allowed_sensitivities` (retriever.py lines 36-43):
`executive ↦ {public, product, insider}`, `product_manager ↦
{public, product}`, and the `else` branch (commented "analyst or default")
yields `{public}` for *every* other string, unknown roles included. -/
def get_allowed_sensitivities (user_role : String) : List String :=
  if user_role = "executive" then ["public", "product", "insider"]
  else if user_role = "product_manager" then ["public", "product"]
  else ["public"]

/-! ## Secure retriever (`SecureRetriever.retrieve`) -/

/-- `SecureRetriever.retrieve` (retriever.py lines 45-62).  The FAISS
store's `similarity_search` is the external collaborator `search`; the
code asks it for `k * 3` candidates, keeps those whose
`metadata.get("sensitivity", "public")` lies in the allowed set, and
returns the first `k` of the survivors. -/
def retrieve (search : String → Nat → List Doc) (query : String)
    (user_role : String) (k : Nat) : List Doc :=
  let allowed := get_allowed_sensitivities user_role
  let all_docs := search query (k * 3)
  let filtered_docs :=
    all_docs.filter (fun d => decide (d.sensitivity.getD "public" ∈ allowed))
  filtered_docs.take k

/-- C1: for every similarity-search collaborator, query, role and `k`,
every document returned by `retrieve` carries a sensitivity label (with
the code's `"public"` default for unlabeled documents) that belongs to
the set `get_allowed_sensitivities` grants to the requesting role. -/
theorem retrieve_access_invariant (search : String → Nat → List Doc)
    (query user_role : String) (k : Nat) (d : Doc)
    (hd : d ∈ retrieve search query user_role k) :
    d.sensitivity.getD "public" ∈ get_allowed_sensitivities user_role := by
  unfold retrieve at hd
  have hmem := List.mem_of_mem_take hd
  have := (List.mem_filter.mp hmem).2
  exact of_decide_eq_true this

/-- A two-document corpus used to instantiate the retrieval theorems. -/
def demoPublicDoc : Doc :=
  { content := "NVIDIA Q3 Revenue reported at 18.12 Billion"
    sensitivity := some "public", source := some "10-Q"
    category := some "financials", year := some 2024 }

/-- An insider-labeled document, visible only to executives. -/
def demoInsiderDoc : Doc :=
  { content := "CONFIDENTIAL: Project Blackwell is facing a 3-month delay"
    sensitivity := some "insider", source := some "Internal Memo"
    category := some "operations", year := some 2025 }

/-- A concrete similarity-search collaborator returning the two demo
documents (insider first) for every query. -/
def demoSearch : String → Nat → List Doc :=
  fun _ _ => [demoInsiderDoc, demoPublicDoc]

theorem retrieve_access_invariant_witness :
    demoPublicDoc ∈ retrieve demoSearch "revenue" "analyst" 3 ∧
      demoPublicDoc.sensitivity.getD "public" ∈
        get_allowed_sensitivities "analyst" :=
  ⟨by decide,
   retrieve_access_invariant demoSearch "revenue" "analyst" 3 demoPublicDoc
     (by decide)⟩

/-- C3: `retrieve` asks the store for exactly `k * 3` candidates, filters
them to the labels allowed for the role, truncates to the first `k`
survivors, preserves the store's similarity order (the result is a
sublist of the candidate list), returns at most `k` documents, and when
no candidate is permitted it returns the empty list (a value, not an
error). -/
theorem retrieve_oversample_filter_truncate (search : String → Nat → List Doc)
    (query user_role : String) (k : Nat) :
    retrieve search query user_role k =
        ((search query (k * 3)).filter
          (fun d => decide (d.sensitivity.getD "public" ∈
            get_allowed_sensitivities user_role))).take k ∧
      (retrieve search query user_role k).Sublist (search query (k * 3)) ∧
      (retrieve search query user_role k).length ≤ k ∧
      (((search query (k * 3)).filter
          (fun d => decide (d.sensitivity.getD "public" ∈
            get_allowed_sensitivities user_role))) = [] →
        retrieve search query user_role k = []) := by
  refine ⟨rfl, ?_, ?_, ?_⟩
  · exact (List.take_sublist _ _).trans (List.filter_sublist _)
  · simp [retrieve]
  · intro hnone
    simp [retrieve, hnone]

theorem retrieve_oversample_filter_truncate_witness :
    ((demoSearch "q" (1 * 3)).filter
        (fun d => decide (d.sensitivity.getD "public" ∈
          get_allowed_sensitivities "product_manager"))) ≠ [] ∧
      (retrieve demoSearch "q" "product_manager" 1).Sublist
        (demoSearch "q" (1 * 3)) ∧
      (retrieve demoSearch "q" "product_manager" 1).length ≤ 1 :=
  ⟨by decide,
   (retrieve_oversample_filter_truncate demoSearch "q" "product_manager" 1).2.1,
   (retrieve_oversample_filter_truncate demoSearch "q" "product_manager" 1).2.2.1⟩

/-! ## C2: the access policy never fails on unknown roles -/

/-- C2 counterexample: the claim says `get_allowed_sensitivities` fails
with `UnknownRole` for every role outside
`{analyst, product_manager, executive}` and never silently returns a
default label set; in the code the `else` branch silently hands the
unknown role `"hacker"` the narrowest (analyst-default) set
`{"public"}`. -/
theorem get_allowed_sensitivities_hacker_defaults :
    get_allowed_sensitivities "hacker" = ["public"] := by rfl

/-- C2 amended: `get_allowed_sensitivities` is a total function with no
error path; every role other than `executive` and `product_manager` —
unknown roles included — silently receives the narrowest set
`{"public"}` (the analyst default).  Unknown-role rejection happens only
at the `ask` boundary, before retrieval. -/
theorem get_allowed_sensitivities_total_default (user_role : String)
    (h1 : user_role ≠ "executive") (h2 : user_role ≠ "product_manager") :
    get_allowed_sensitivities user_role = ["public"] := by
  simp [get_allowed_sensitivities, h1, h2]

theorem get_allowed_sensitivities_total_default_witness :
    get_allowed_sensitivities "guest" = ["public"] :=
  get_allowed_sensitivities_total_default "guest" (by decide) (by decide)

/-! ## PII regex matchers (`src/guardrails.py` lines 17-29)

The four patterns of `PII_PATTERNS` use only character classes, literal
characters, counted repetition, `?`, `+`, `{2,}` and the word-boundary
assertion `\b`.  We embed exactly this fragment of `re.search` (ASCII
semantics): a matcher is written in continuation-passing style, threads
the previously consumed character (for `\b`), and explores every
alternative, so it decides *existence* of a match, which is all
`re.search`'s truthiness gives the code. -/

/-- Python `\w` (ASCII fragment): letters, digits, underscore. -/
def isWordChar (c : Char) : Bool := c.isAlpha || c.isDigit || c = '_'

/-- Python `\s` (ASCII fragment). -/
def isPySpace (c : Char) : Bool :=
  c = ' ' || c = '\t' || c = '\n' || c = '\r' || c = '\x0b' || c = '\x0c'

/-- A matcher receives the previously consumed character (`none` at the
start of the haystack), the remaining input and a continuation; it
returns whether some way of matching its pattern lets the continuation
succeed. -/
def Matcher : Type :=
  Option Char → List Char → (Option Char → List Char → Bool) → Bool

/-- Match one character of the class `p`. -/
def mch (p : Char → Bool) : Matcher := fun _ s k =>
  match s with
  | [] => false
  | c :: rest => p c && k (some c) rest

/-- Match a literal character. -/
def mlit (c : Char) : Matcher := mch (fun x => x = c)

/-- Sequencing of two matchers. -/
def mseq (a b : Matcher) : Matcher := fun prev s k =>
  a prev s (fun last rest => b last rest k)

/-- `?`: zero or one occurrence. -/
def mopt (a : Matcher) : Matcher := fun prev s k => k prev s || a prev s k

/-- Word-character test on an optional character (`none` = string edge,
which Python treats as a non-word position). -/
def isWordOpt : Option Char → Bool
  | none => false
  | some c => isWordChar c

/-- The `\b` word-boundary assertion: consumes nothing, holds when
exactly one side of the current position is a word character. -/
def mbnd : Matcher := fun prev s k =>
  (isWordOpt prev != isWordOpt s.head?) && k prev s

/-- Kleene star over a character class: try the continuation at every
prefix of a run of `p`-characters. -/
def mstarAux (p : Char → Bool) :
    Option Char → List Char → (Option Char → List Char → Bool) → Bool
  | prev, [], k => k prev []
  | prev, c :: rest, k =>
      k prev (c :: rest) || (p c && mstarAux p (some c) rest k)

/-- Kleene star over a character class, as a matcher. -/
def mstar (p : Char → Bool) : Matcher := fun prev s k => mstarAux p prev s k

/-- `{n}`: exactly `n` characters of the class `p`. -/
def mrep : Nat → (Char → Bool) → Matcher
  | 0, _ => fun prev s k => k prev s
  | n + 1, p => mseq (mch p) (mrep n p)

/-- `+`: one or more characters of the class `p`. -/
def mplus (p : Char → Bool) : Matcher := mseq (mch p) (mstar p)

/-- `{n,}`: at least `n` characters of the class `p`. -/
def matLeast (n : Nat) (p : Char → Bool) : Matcher := mseq (mrep n p) (mstar p)

/-- Try the matcher at the current position and at every later start
position, threading the character preceding each position. -/
def reSearchAux (m : Matcher) : Option Char → List Char → Bool
  | prev, [] => m prev [] (fun _ _ => true)
  | prev, c :: rest =>
      m prev (c :: rest) (fun _ _ => true) || reSearchAux m (some c) rest

/-- `re.search(pattern, text)` truthiness for the embedded fragment. -/
def reSearch (m : Matcher) (text : String) : Bool := reSearchAux m none text.data

/-- `r"\b\d{3}-\d{2}-\d{4}\b"`. -/
def pat_ssn : Matcher :=
  mseq mbnd (mseq (mrep 3 Char.isDigit) (mseq (mlit '-')
    (mseq (mrep 2 Char.isDigit) (mseq (mlit '-')
      (mseq (mrep 4 Char.isDigit) mbnd)))))

/-- The class `[-\s]` of the credit-card pattern. -/
def isCcSep (c : Char) : Bool := c = '-' || isPySpace c

/-- `r"\b\d{4}[-\s]?\d{4}[-\s]?\d{4}[-\s]?\d{4}\b"`. -/
def pat_credit_card : Matcher :=
  mseq mbnd (mseq (mrep 4 Char.isDigit) (mseq (mopt (mch isCcSep))
    (mseq (mrep 4 Char.isDigit) (mseq (mopt (mch isCcSep))
      (mseq (mrep 4 Char.isDigit) (mseq (mopt (mch isCcSep))
        (mseq (mrep 4 Char.isDigit) mbnd)))))))

/-- The class `[A-Za-z0-9._%+-]` (local part of the email pattern). -/
def isEmailLocal (c : Char) : Bool :=
  c.isAlpha || c.isDigit || c = '.' || c = '_' || c = '%' || c = '+' || c = '-'

/-- The class `[A-Za-z0-9.-]` (domain part of the email pattern). -/
def isEmailDomain (c : Char) : Bool :=
  c.isAlpha || c.isDigit || c = '.' || c = '-'

/-- The class `[A-Z|a-z]` — note the literal `|` inside the class, kept
faithfully from the source pattern. -/
def isEmailTld (c : Char) : Bool := c.isAlpha || c = '|'

/-- `r"\b[A-Za-z0-9._%+-]+@[A-Za-z0-9.-]+\.[A-Z|a-z]{2,}\b"`. -/
def pat_email : Matcher :=
  mseq mbnd (mseq (mplus isEmailLocal) (mseq (mlit '@')
    (mseq (mplus isEmailDomain) (mseq (mlit '.')
      (mseq (matLeast 2 isEmailTld) mbnd)))))

/-- The class `[-.]` of the phone pattern. -/
def isPhoneSep (c : Char) : Bool := c = '-' || c = '.'

/-- `r"\b\d{3}[-.]?\d{3}[-.]?\d{4}\b"`. -/
def pat_phone : Matcher :=
  mseq mbnd (mseq (mrep 3 Char.isDigit) (mseq (mopt (mch isPhoneSep))
    (mseq (mrep 3 Char.isDigit) (mseq (mopt (mch isPhoneSep))
      (mseq (mrep 4 Char.isDigit) mbnd)))))

/-- `PII_PATTERNS` (guardrails.py lines 17-22), in source (dict
insertion) order. -/
def PII_PATTERNS : List (String × Matcher) :=
  [("ssn", pat_ssn), ("credit_card", pat_credit_card),
   ("email", pat_email), ("phone", pat_phone)]

/-- `check_pii` (guardrails.py lines 24-29): scan the registry in order,
return the first matching kind, else `(False, "")`. -/
def check_pii (text : String) : Bool × String :=
  match PII_PATTERNS.find? (fun pr => reSearch pr.2 text) with
  | some pr => (true, pr.1)
  | none => (false, "")

/-! ## Guardrail check (`guardrail_check`, guardrails.py lines 32-49) -/

/-- Does the second character list start with the first one?  (Helper
for the embedding of Python's substring operator `in`.) -/
def leadsWith : List Char → List Char → Bool
  | [], _ => true
  | _ :: _, [] => false
  | a :: as, b :: bs => a = b && leadsWith as bs

/-- Python's substring operator `needle in hay` on strings, over the
underlying character lists. -/
def occursIn (needle : List Char) : List Char → Bool
  | [] => leadsWith needle []
  | c :: rest => leadsWith needle (c :: rest) || occursIn needle rest

/-- Python `not context.strip()`: true exactly when every character is
whitespace (in particular for the empty string). -/
def pyIsBlank (s : String) : Bool := s.data.all isPySpace

/-- The fixed `confidence_phrases` list (guardrails.py line 45). -/
def confidence_phrases : List String :=
  ["according to", "the data shows", "based on the documents"]

/-- The hallucination block message (guardrails.py line 47). -/
def hallucinationBlockMsg : String :=
  "[BLOCKED: Potential hallucination - no context but confident answer]"

/-- `guardrail_check` (guardrails.py lines 32-49): first the PII scan
(block on any match, naming the kind), then the unsupported-claim
heuristic (blank context, length over 100, a confidence phrase in the
lowercased response), else pass the response through unchanged. -/
def guardrail_check (context response : String) : Bool × String :=
  let pii := check_pii response
  if pii.1 then
    (false, "[BLOCKED: " ++ pii.2 ++ " detected in response]")
  else if pyIsBlank context && decide (100 < response.length) &&
      confidence_phrases.any
        (fun ph => occursIn ph.data response.toLower.data) then
    (false, hallucinationBlockMsg)
  else
    (true, response)

/-- C4: `guardrail_check` runs its two checks in order with the first
block winning.  (i) Any registry pattern matching the response makes the
PII scan fire; (ii) when it fires, the result is a block naming the
matched registry kind; (iii) when it does not fire no registry pattern
matches; (iv) a PII-clean response is blocked with the hallucination
reason exactly when the context is empty/whitespace, the response
exceeds 100 characters, and a fixed confidence phrase occurs in the
lowercased response; (v) otherwise the response itself passes through. -/
theorem guardrail_check_eval_order (c s : String) :
    ((∃ pr ∈ PII_PATTERNS, reSearch pr.2 s = true) → (check_pii s).1 = true)
    ∧ ((check_pii s).1 = true →
        (∃ m, ((check_pii s).2, m) ∈ PII_PATTERNS ∧ reSearch m s = true) ∧
        guardrail_check c s =
          (false, "[BLOCKED: " ++ (check_pii s).2 ++ " detected in response]"))
    ∧ ((check_pii s).1 = false → ∀ pr ∈ PII_PATTERNS, reSearch pr.2 s = false)
    ∧ ((check_pii s).1 = false →
        (guardrail_check c s = (false, hallucinationBlockMsg) ↔
          (pyIsBlank c = true ∧ 100 < s.length ∧
            ∃ ph ∈ confidence_phrases, occursIn ph.data s.toLower.data = true)))
    ∧ ((check_pii s).1 = false →
        ¬(pyIsBlank c = true ∧ 100 < s.length ∧
            ∃ ph ∈ confidence_phrases, occursIn ph.data s.toLower.data = true) →
        guardrail_check c s = (true, s)) := by
  cases hf : PII_PATTERNS.find? (fun pr => reSearch pr.2 s) with
  | none =>
    have hcp : check_pii s = (false, "") := by simp [check_pii, hf]
    have hnone := List.find?_eq_none.mp hf
    refine ⟨?_, ?_, ?_, ?_, ?_⟩
    · rintro ⟨pr, hpr, hmatch⟩
      exact absurd hmatch (by simpa using hnone pr hpr)
    · intro h
      rw [hcp] at h
      cases h
    · intro _ pr hpr
      simpa using hnone pr hpr
    · intro _
      by_cases hcond : pyIsBlank c = true ∧ 100 < s.length ∧
          ∃ ph ∈ confidence_phrases, occursIn ph.data s.toLower.data = true
      · obtain ⟨hb, hl, ph, hph, hocc⟩ := hcond
        have hcb : (pyIsBlank c && decide (100 < s.length) &&
            confidence_phrases.any
              (fun ph => occursIn ph.data s.toLower.data)) = true := by
          simp only [Bool.and_eq_true, decide_eq_true_iff, List.any_eq_true]
          exact ⟨⟨hb, hl⟩, ph, hph, hocc⟩
        constructor
        · intro _
          exact ⟨hb, hl, ph, hph, hocc⟩
        · intro _
          simp [guardrail_check, hcp, hcb]
      · have : (pyIsBlank c && decide (100 < s.length) &&
            confidence_phrases.any
              (fun ph => occursIn ph.data s.toLower.data)) = false := by
          rw [Bool.eq_false_iff]
          intro hcon
          apply hcond
          simp only [Bool.and_eq_true, decide_eq_true_iff,
            List.any_eq_true] at hcon
          exact ⟨hcon.1.1, hcon.1.2, hcon.2⟩
        constructor
        · intro hres
          exfalso
          rw [guardrail_check] at hres
          simp [hcp, this] at hres
        · intro hc
          exact absurd hc hcond
    · intro _ hcond
      have : (pyIsBlank c && decide (100 < s.length) &&
          confidence_phrases.any
            (fun ph => occursIn ph.data s.toLower.data)) = false := by
        rw [Bool.eq_false_iff]
        intro hcon
        apply hcond
        simp only [Bool.and_eq_true, decide_eq_true_iff,
          List.any_eq_true] at hcon
        exact ⟨hcon.1.1, hcon.1.2, hcon.2⟩
      simp [guardrail_check, hcp, this]
  | some pr =>
    have hcp : check_pii s = (true, pr.1) := by simp [check_pii, hf]
    have hmem := List.mem_of_find?_eq_some hf
    have hmatch : reSearch pr.2 s = true := by
      simpa using List.find?_some hf
    refine ⟨?_, ?_, ?_, ?_, ?_⟩
    · intro _
      rw [hcp]
    · intro _
      refine ⟨⟨pr.2, ?_, hmatch⟩, ?_⟩
      · rw [hcp]
        exact hmem
      · simp [guardrail_check, hcp]
    · intro h
      rw [hcp] at h
      cases h
    · intro h
      rw [hcp] at h
      cases h
    · intro h
      rw [hcp] at h
      cases h

theorem guardrail_check_eval_order_witness :
    guardrail_check "some context" "All good." = (true, "All good.") :=
  ((guardrail_check_eval_order "some context" "All good.").2.2.2.2)
    (by decide) (by decide)

/-- C5: for every context, a response containing the card number
`4111-1111-1111-1111` is blocked with the credit-card reason, and the
response `"Revenue was $18 billion"` passes unchanged. -/
theorem guardrail_card_blocked_revenue_passes (ctx : String) :
    guardrail_check ctx "Card: 4111-1111-1111-1111" =
        (false, "[BLOCKED: credit_card detected in response]") ∧
      guardrail_check ctx "Revenue was $18 billion" =
        (true, "Revenue was $18 billion") := by
  constructor
  · have hcp : check_pii "Card: 4111-1111-1111-1111" = (true, "credit_card") :=
      by decide
    simp [guardrail_check, hcp]
  · have hcp : check_pii "Revenue was $18 billion" = (false, "") := by decide
    have hlen :
        decide (100 < ("Revenue was $18 billion" : String).length) = false :=
      by decide
    simp [guardrail_check, hcp, hlen]

/-! ## Python calculator tool (`python_calculator`, guardrails.py 78-90)

The source hands the cleaned snippet to Python `exec` with a math-only
local scope.  We embed the arithmetic-assignment fragment the tool is
documented and tested for: a sequence of lines `name = expression` with
decimal literals, names, unary minus, `+ - * /` and Python's exact
numeric semantics modelled over `ℚ` (`ZeroDivisionError` on a zero
divisor).  Every failure becomes a caught error value, mirroring the
`except Exception` handler. -/

/-- Exact "numerator, denominator" pairs (denominator never zero, sign
unconstrained, no normalization so that every operation is
kernel-computable).  The rational value is `pyNumVal`. -/
def PyNum : Type := Int × Int
deriving DecidableEq, Repr

/-- The rational value of a `PyNum`. -/
def pyNumVal (v : PyNum) : ℚ := (v.1 : ℚ) / (v.2 : ℚ)

/-- Exact addition. -/
def pyAdd (a b : PyNum) : PyNum := (a.1 * b.2 + b.1 * a.2, a.2 * b.2)

/-- Exact subtraction. -/
def pySub (a b : PyNum) : PyNum := (a.1 * b.2 - b.1 * a.2, a.2 * b.2)

/-- Exact multiplication. -/
def pyMul (a b : PyNum) : PyNum := (a.1 * b.1, a.2 * b.2)

/-- Exact division (callers guard against a zero divisor first). -/
def pyDiv (a b : PyNum) : PyNum := (a.1 * b.2, a.2 * b.1)

/-- Negation. -/
def pyNeg (a : PyNum) : PyNum := (-a.1, a.2)

/-- Arithmetic tokens: numeric literal, name, one-character symbol. -/
inductive Tok
  | num (q : PyNum)
  | name (s : String)
  | sym (c : Char)
deriving DecidableEq, Repr

/-- First character of a Python identifier. -/
def isIdentStart (c : Char) : Bool := c.isAlpha || c = '_'

/-- Later characters of a Python identifier. -/
def isIdentChar (c : Char) : Bool := c.isAlpha || c.isDigit || c = '_'

/-- Characters a numeric literal may contain. -/
def isNumChar (c : Char) : Bool := c.isDigit || c = '.'

/-- Decimal digits to a natural number. -/
def digitsToNat (ds : List Char) : Nat :=
  ds.foldl (fun a c => a * 10 + (c.toNat - 48)) 0

/-- Parse a munched run of digits and dots as a Python numeric literal
(`18`, `18.12`); more than one dot is a syntax error. -/
def parseNumTok (ds : List Char) : Option PyNum :=
  let intChars := ds.takeWhile Char.isDigit
  match ds.dropWhile Char.isDigit with
  | [] => some ((digitsToNat intChars : Int), 1)
  | '.' :: fr =>
      if fr.all Char.isDigit then
        some ((digitsToNat intChars * 10 ^ fr.length + digitsToNat fr : Nat),
          ((10 : Int) ^ fr.length))
      else none
  | _ => none

/-- Tokenizer; the fuel argument (initially the input length) only pays
for the structural recursion, every step consumes at least one
character. -/
def tokenizeAux : Nat → List Char → Option (List Tok)
  | _, [] => some []
  | 0, _ :: _ => none
  | fuel + 1, c :: cs =>
    if c = ' ' || c = '\t' then tokenizeAux fuel cs
    else if c.isDigit then
      let run := (c :: cs).takeWhile isNumChar
      let rest := (c :: cs).dropWhile isNumChar
      match parseNumTok run with
      | some q => (tokenizeAux fuel rest).map (fun ts => Tok.num q :: ts)
      | none => none
    else if isIdentStart c then
      let run := (c :: cs).takeWhile isIdentChar
      let rest := (c :: cs).dropWhile isIdentChar
      (tokenizeAux fuel rest).map (fun ts => Tok.name (String.mk run) :: ts)
    else if c = '+' || c = '-' || c = '*' || c = '/' ||
        c = '(' || c = ')' || c = '=' then
      (tokenizeAux fuel cs).map (fun ts => Tok.sym c :: ts)
    else none

/-- Tokenize one source line. -/
def tokenizeLine (s : String) : Option (List Tok) :=
  tokenizeAux s.length s.data

/-- Variable environments (Python's `local_scope`). -/
def PyEnv : Type := List (String × PyNum)

/-- An atom: literal or name (unknown names raise `NameError`). -/
def evalAtom (env : PyEnv) : List Tok → Except String (PyNum × List Tok)
  | Tok.num q :: rest => .ok (q, rest)
  | Tok.name x :: rest =>
      match env.find? (fun p => p.1 = x) with
      | some p => .ok (p.2, rest)
      | none => .error ("name \x27" ++ x ++ "\x27 is not defined")
  | _ => .error "invalid syntax"

/-- A factor: an atom with an optional leading unary minus. -/
def evalFactor (env : PyEnv) : List Tok → Except String (PyNum × List Tok)
  | Tok.sym '-' :: rest =>
      (evalAtom env rest).map (fun vr => (pyNeg vr.1, vr.2))
  | toks => evalAtom env toks

/-- Left-associative chain of `*` and `/`; a zero divisor raises
Python's `ZeroDivisionError("division by zero")`. -/
def evalTermLoop (env : PyEnv) : Nat → PyNum → List Tok →
    Except String (PyNum × List Tok)
  | 0, acc, toks => .ok (acc, toks)
  | fuel + 1, acc, toks =>
    match toks with
    | Tok.sym '*' :: rest =>
        match evalFactor env rest with
        | .ok (v, r) => evalTermLoop env fuel (pyMul acc v) r
        | .error e => .error e
    | Tok.sym '/' :: rest =>
        match evalFactor env rest with
        | .ok (v, r) =>
            if v.1 = 0 then .error "division by zero"
            else evalTermLoop env fuel (pyDiv acc v) r
        | .error e => .error e
    | _ => .ok (acc, toks)

/-- A term: factor followed by `*`/`/` chain. -/
def evalTerm (env : PyEnv) (toks : List Tok) :
    Except String (PyNum × List Tok) :=
  match evalFactor env toks with
  | .ok (v, r) => evalTermLoop env (r.length + 1) v r
  | .error e => .error e

/-- Left-associative chain of `+` and `-`. -/
def evalExprLoop (env : PyEnv) : Nat → PyNum → List Tok →
    Except String (PyNum × List Tok)
  | 0, acc, toks => .ok (acc, toks)
  | fuel + 1, acc, toks =>
    match toks with
    | Tok.sym '+' :: rest =>
        match evalTerm env rest with
        | .ok (v, r) => evalExprLoop env fuel (pyAdd acc v) r
        | .error e => .error e
    | Tok.sym '-' :: rest =>
        match evalTerm env rest with
        | .ok (v, r) => evalExprLoop env fuel (pySub acc v) r
        | .error e => .error e
    | _ => .ok (acc, toks)

/-- A full expression: term followed by `+`/`-` chain. -/
def evalExpr (env : PyEnv) (toks : List Tok) :
    Except String (PyNum × List Tok) :=
  match evalTerm env toks with
  | .ok (v, r) => evalExprLoop env (r.length + 1) v r
  | .error e => .error e

/-- Rebind a name in the environment (Python dict assignment). -/
def envSet (env : PyEnv) (x : String) (v : PyNum) : PyEnv :=
  (env.filter (fun p => !(p.1 = x : Bool))) ++ [(x, v)]

/-- Execute one statement line: blank, or `name = expression` consuming
all tokens. -/
def execStmt (env : PyEnv) (line : List Tok) : Except String PyEnv :=
  match line with
  | [] => .ok env
  | Tok.name x :: Tok.sym '=' :: rest =>
      match evalExpr env rest with
      | .ok (v, []) => .ok (envSet env x v)
      | .ok (_, _ :: _) => .error "invalid syntax"
      | .error e => .error e
  | _ => .error "invalid syntax"

/-- Run the lines of the snippet in order, threading the environment. -/
def runLines (env : PyEnv) : List (List Char) → Except String PyEnv
  | [] => .ok env
  | l :: ls =>
      match tokenizeAux l.length l with
      | none => .error "invalid syntax"
      | some toks =>
          match execStmt env toks with
          | .ok env2 => runLines env2 ls
          | .error e => .error e

/-- Python `str.strip()` (ASCII whitespace fragment). -/
def pyStrip (s : List Char) : List Char :=
  ((s.dropWhile isPySpace).reverse.dropWhile isPySpace).reverse

/-- Python `str.replace(old, new)` for a non-empty `old`: rewrite every
non-overlapping occurrence, scanning left to right.  The fuel argument
(initially the input length) pays for the structural recursion; every
step consumes at least one character. -/
def pyReplaceAux (old new : List Char) : Nat → List Char → List Char
  | _, [] => []
  | 0, s => s
  | fuel + 1, c :: rest =>
      if old ≠ [] ∧ leadsWith old (c :: rest) then
        new ++ pyReplaceAux old new fuel (List.drop old.length (c :: rest))
      else c :: pyReplaceAux old new fuel rest

/-- Python `str.replace(old, new)` (non-empty `old`). -/
def pyReplace (s old new : List Char) : List Char :=
  pyReplaceAux old new s.length s

/-- Python `str.split("\n")`. -/
def splitNl : List Char → List (List Char)
  | [] => [[]]
  | c :: rest =>
      match splitNl rest with
      | [] => [[]]
      | grp :: grps =>
          if c = '\n' then [] :: grp :: grps else (c :: grp) :: grps

/-- The three outcomes of `python_calculator`: the three `return`
branches of the source (result found, `result` missing, caught
exception). -/
inductive EvalOutcome
  | ok (v : PyNum)
  | missingResult
  | evalError (msg : String)
deriving DecidableEq, Repr

/-- `python_calculator` (guardrails.py lines 78-90): strip the markdown
fences, run the code with an initially empty local scope, then report
`local_scope["result"]`, a missing-`result` error, or the caught
exception text. -/
def python_calculator (code_snippet : String) : EvalOutcome :=
  let clean :=
    pyStrip (pyReplace (pyReplace code_snippet.data "```python".data [])
      "```".data [])
  match runLines [] (splitNl clean) with
  | .error e => .evalError e
  | .ok env =>
      match env.find? (fun p => p.1 = "result") with
      | some p => .ok p.2
      | none => .missingResult

/-- C6: the calculator yields a success outcome of approximately
`19.932` on `"result = 18.12 * 1.10"` (exactly `19.932` in the `ℚ`
model; CPython's binary floats land within the same `1/100` window), a
missing-`result` outcome on `"x = 5 + 3"`, and a caught evaluation
error — not an unhandled exception — on the arithmetic failure
`"result = 1/0"`. -/
theorem python_calculator_roundtrip :
    (∃ v : PyNum, python_calculator "result = 18.12 * 1.10" = .ok v ∧
        |pyNumVal v - 19.932| < 1 / 100) ∧
      python_calculator "x = 5 + 3" = .missingResult ∧
      python_calculator "result = 1/0" = .evalError "division by zero" :=
  ⟨⟨(199320, 10000), by decide, by norm_num [pyNumVal]⟩, by decide, by decide⟩

/-! ## Workflow engine (`src/agent.py`)

The LangGraph graph: nodes `retrieve` → `generate` → (`tool_executor` →
`generate`)* with `should_continue` routing `generate` to the tool
whenever the latest message embeds a ```` ```python ```` fence, and to
`END` otherwise.  The chat model is the external collaborator
`llm : context → role → history → reply`.  `FinancialState` is the
graph state: it carries messages, role, context and the guardrail flag —
and, notably, no iteration counter. -/

/-- A conversation message (`HumanMessage` / `AIMessage`): tag plus
content. -/
structure Msg where
  human : Bool
  content : String
deriving DecidableEq, Repr

/-- The content of the last message (`state["messages"][-1].content`). -/
def lastContent (msgs : List Msg) : String :=
  match msgs.getLast? with
  | some m => m.content
  | none => ""

/-- The directive check used by `generate_node`, `tool_node` and
`should_continue`: the Python substring test `"```python" in content`. -/
def hasFence (s : String) : Bool := occursIn "```python".data s.data

/-- Python `str.split(sep)` for a non-empty separator (fuel pays for the
structural recursion; each step consumes at least one character). -/
def pySplitAux (sep : List Char) : Nat → List Char → List (List Char)
  | _, [] => [[]]
  | 0, s => [s]
  | fuel + 1, c :: rest =>
      if sep ≠ [] ∧ leadsWith sep (c :: rest) then
        [] :: pySplitAux sep fuel (List.drop sep.length (c :: rest))
      else
        match pySplitAux sep fuel rest with
        | [] => [[c]]
        | grp :: grps => (c :: grp) :: grps

/-- Python `str.split(sep)` (non-empty separator). -/
def pySplit (s sep : List Char) : List (List Char) :=
  pySplitAux sep s.length s

/-- Decimal digits of a natural number (fuel-based long division). -/
def natDigitsAux : Nat → Nat → List Char
  | 0, _ => []
  | fuel + 1, n =>
      if n < 10 then [Char.ofNat (48 + n)]
      else natDigitsAux fuel (n / 10) ++ [Char.ofNat (48 + n % 10)]

/-- Decimal digits of a natural number. -/
def natDigits (n : Nat) : List Char := natDigitsAux (n + 1) n

/-- Decimal rendering of an integer. -/
def intDigits : Int → List Char
  | Int.ofNat n => natDigits n
  | Int.negSucc n => '-' :: natDigits (n + 1)

/-- Rendering of an exact calculator value (denominator 1 prints as an
integer). -/
def pyNumStr (v : PyNum) : String :=
  if v.2 = 1 then String.mk (intDigits v.1)
  else String.mk (intDigits v.1 ++ '/' :: intDigits v.2)

/-- The three `return` strings of `python_calculator`
(guardrails.py lines 86-90). -/
def calculator_message : EvalOutcome → String
  | .ok v => "Calculated Result: " ++ pyNumStr v
  | .missingResult =>
      "Error: Please assign your answer to a variable named \x27result\x27."
  | .evalError e => "Calculation Error: " ++ e

/-- The graph state (`FinancialState`, agent.py lines 18-22). -/
structure FinancialState where
  messages : List Msg
  user_role : String
  context : String
  guardrail_triggered : Option Bool
deriving DecidableEq, Repr

/-- Graph nodes plus the terminal `END`. -/
inductive GNode
  | retrieve
  | generate
  | tool_executor
  | done
deriving DecidableEq, Repr

/-- `retrieve_node` (agent.py lines 50-67): retrieve `k = 3` documents
for the latest message under the caller's role and store the formatted
context.  (The store always labels its documents, so the code's direct
`metadata[...]` subscripts are modelled with a default.) -/
def retrieve_node (search : String → Nat → List Doc)
    (st : FinancialState) : FinancialState :=
  let user_query := lastContent st.messages
  let docs := retrieve search user_query st.user_role 3
  let context_text := String.intercalate "\n\n" (docs.map (fun d =>
    "Source (" ++ d.sensitivity.getD "" ++ ", " ++ d.source.getD "" ++
      "): " ++ d.content))
  { st with context := context_text }

/-- `generate_node` (agent.py lines 70-119): call the model, run the
guardrails; on block append the safe message as a `HumanMessage` and set
the flag, on pass append the model reply.  (The `log_access` call on the
pass/no-directive path touches only the audit file, modelled separately
by `log_access_entry`.) -/
def generate_node (llm : String → String → List Msg → String)
    (st : FinancialState) : FinancialState :=
  let response := llm st.context st.user_role st.messages
  let checked := guardrail_check st.context response
  if checked.1 = false then
    { st with messages := st.messages ++ [{ human := true, content := checked.2 }]
              guardrail_triggered := some true }
  else
    { st with messages := st.messages ++ [{ human := false, content := response }]
              guardrail_triggered := some false }

/-- `tool_node` (agent.py lines 122-139): when the latest message embeds
a fence, cut out the code between ```` ```python ```` and ```` ``` ````,
run the calculator and append its output as a new `HumanMessage`;
otherwise append nothing. -/
def tool_node (st : FinancialState) : FinancialState :=
  let content := lastContent st.messages
  if hasFence content then
    let code_block :=
      ((pySplit ((pySplit content.data "```python".data).getD 1 [])
        "```".data).getD 0 [])
    let output := calculator_message (python_calculator (String.mk code_block))
    { st with messages := st.messages ++ [{ human := true, content := output }] }
  else st

/-- `should_continue` (agent.py lines 142-149): route to the tool
exactly when the latest message embeds a fence. -/
def should_continue (st : FinancialState) : Bool :=
  hasFence (lastContent st.messages)

/-- One transition of the compiled graph (agent.py lines 156-180):
`retrieve → generate`, `generate → tool_executor` or `END` via
`should_continue`, `tool_executor → generate`, `END` absorbing. -/
def wfStep (search : String → Nat → List Doc)
    (llm : String → String → List Msg → String) :
    GNode × FinancialState → GNode × FinancialState
  | (GNode.retrieve, st) => (GNode.generate, retrieve_node search st)
  | (GNode.generate, st) =>
      let st2 := generate_node llm st
      (if should_continue st2 then GNode.tool_executor else GNode.done, st2)
  | (GNode.tool_executor, st) => (GNode.generate, tool_node st)
  | (GNode.done, st) => (GNode.done, st)

/-- A model collaborator that re-emits a calculation directive in every
reply (and whose reply passes the guardrails: no PII, 22 ≤ 100
characters). -/
def llmLoop : String → String → List Msg → String :=
  fun _ _ _ => "```python\nresult = 1\n```"

/-- A starting graph state: one user question, analyst role. -/
def wfInit : FinancialState :=
  { messages := [{ human := true, content := "Project the growth" }]
    user_role := "analyst", context := "", guardrail_triggered := none }

/-- C8 counterexample: with the always-re-emitting collaborator
`llmLoop`, after 13 graph transitions — more than enough for the claimed
cap of 5 Evaluate↔Generate round-trips — the workflow still has not
reached `Done`, refuting the claim that a hard iteration cap forces
termination with a degraded response. -/
theorem workflow_cap_counterexample :
    ((wfStep demoSearch llmLoop)^[13] (GNode.retrieve, wfInit)).1 ≠
      GNode.done := by decide

/-- C8 amended: the compiled graph has no iteration cap at all —
`FinancialState` carries no counter and `should_continue` inspects only
the latest message — so for every collaborator whose replies always
embed a calculation directive and pass the guardrails, the workflow
never reaches `Done`, for any number of transitions.  (In deployment the
LangGraph runtime's recursion limit eventually raises an exception, an
error rather than the claimed degraded answer.) -/
theorem workflow_no_iteration_cap (search : String → Nat → List Doc)
    (llm : String → String → List Msg → String)
    (hfence : ∀ c r m, hasFence (llm c r m) = true)
    (hpass : ∀ c r m, (guardrail_check c (llm c r m)).1 = true)
    (st : FinancialState) (n : Nat) :
    ((wfStep search llm)^[n] (GNode.retrieve, st)).1 ≠ GNode.done := by
  have step_preserve : ∀ p : GNode × FinancialState, p.1 ≠ GNode.done →
      (wfStep search llm p).1 ≠ GNode.done := by
    rintro ⟨g, s⟩ hg
    cases g with
    | retrieve => simp [wfStep]
    | generate =>
        have hsc : should_continue (generate_node llm s) = true := by
          unfold should_continue generate_node
          simp [hpass, lastContent, List.getLast?_concat, hfence]
        simp [wfStep, hsc]
    | tool_executor => simp [wfStep]
    | done => exact absurd rfl hg
  induction n with
  | zero => simp
  | succ k ih =>
      rw [Function.iterate_succ_apply']
      exact step_preserve _ ih

/-- The looping collaborator's fixed reply embeds a fence. -/
theorem llmLoop_reply_has_fence :
    hasFence "```python\nresult = 1\n```" = true := by decide

theorem workflow_no_iteration_cap_witness :
    ((wfStep demoSearch llmLoop)^[20] (GNode.retrieve, wfInit)).1 ≠
      GNode.done :=
  workflow_no_iteration_cap demoSearch llmLoop
    (fun _ _ _ => llmLoop_reply_has_fence)
    (fun c _ _ => by
      have hcp : check_pii "```python\nresult = 1\n```" = (false, "") := by
        decide
      have hlen :
          decide (100 < ("```python\nresult = 1\n```" : String).length) =
            false := by decide
      simp [llmLoop, guardrail_check, hcp, hlen])
    wfInit 20

/-! ## Audit logging (`log_access`, guardrails.py lines 56-71)

`log_access` builds a Python dict and appends `json.dumps(entry) + "\n"`
to the audit file.  Dicts with string keys are modelled as ordered
key/value lists (`json.dumps` keeps insertion order), and the encoder
below embeds `json.dumps` for the value shapes the entry uses, with the
escapes relevant to line-delimited output. -/

/-- JSON values appearing in an audit entry: string, int, bool, list of
strings. -/
inductive JVal
  | jstr (s : String)
  | jint (n : Nat)
  | jbool (b : Bool)
  | jlist (xs : List String)
deriving DecidableEq, Repr

/-- `log_access` (guardrails.py lines 56-71): the returned `log_entry`
dict, in insertion order.  `timestamp` (`datetime.now().isoformat()`) is
an input here. -/
def log_access (now user_role query : String) (docs_accessed : List Doc)
    (response : String) : List (String × JVal) :=
  [("timestamp", JVal.jstr now),
   ("user_role", JVal.jstr user_role),
   ("query", JVal.jstr query),
   ("docs_sensitivity",
     JVal.jlist (docs_accessed.map (fun d => d.sensitivity.getD "unknown"))),
   ("docs_sources",
     JVal.jlist (docs_accessed.map (fun d => d.source.getD "unknown"))),
   ("response_length", JVal.jint response.length),
   ("guardrail_triggered", JVal.jbool false)]

/-- `json.dumps` escaping of one character (the backslash, quote and
control-character escapes; other characters pass through). -/
def escChar (c : Char) : List Char :=
  if c = '"' then ['\\', '"']
  else if c = '\\' then ['\\', '\\']
  else if c = '\n' then ['\\', 'n']
  else if c = '\t' then ['\\', 't']
  else if c = '\r' then ['\\', 'r']
  else [c]

/-- `json.dumps` rendering of a string, quotes included. -/
def escString (s : String) : List Char :=
  '"' :: (s.data.flatMap escChar ++ ['"'])

/-- Join rendered items with a separator (the `", "` of `json.dumps`). -/
def joinSep (sep : List Char) : List (List Char) → List Char
  | [] => []
  | [x] => x
  | x :: y :: rest => x ++ sep ++ joinSep sep (y :: rest)

/-- `json.dumps` rendering of one value. -/
def encVal : JVal → List Char
  | JVal.jstr s => escString s
  | JVal.jint n => natDigits n
  | JVal.jbool true => "true".data
  | JVal.jbool false => "false".data
  | JVal.jlist xs => '[' :: (joinSep ", ".data (xs.map escString) ++ [']'])

/-- `json.dumps` rendering of the whole entry object. -/
def encObj (fields : List (String × JVal)) : List Char :=
  '\x7b' :: (joinSep ", ".data
    (fields.map (fun kv => escString kv.1 ++ ": ".data ++ encVal kv.2)) ++
      ['\x7d'])

/-- The exact characters `log_access` appends to the audit file:
`json.dumps(log_entry) + "\n"` (guardrails.py line 69). -/
def log_access_line (now user_role query : String) (docs_accessed : List Doc)
    (response : String) : List Char :=
  encObj (log_access now user_role query docs_accessed response) ++ ['\n']

/-- Character escaping never emits a raw newline. -/
theorem escChar_no_newline (c : Char) : '\n' ∉ escChar c := by
  unfold escChar
  by_cases h1 : c = '"'
  · simp [h1]
  by_cases h2 : c = '\\'
  · simp [h1, h2]
  by_cases h3 : c = '\n'
  · simp [h1, h2, h3]
  by_cases h4 : c = '\t'
  · simp [h1, h2, h3, h4]
  by_cases h5 : c = '\r'
  · simp [h1, h2, h3, h4, h5]
  · intro hm
    simp [h1, h2, h3, h4, h5] at hm
    exact h3 hm.symm

/-- Rendered strings never contain a raw newline. -/
theorem escString_no_newline (s : String) : '\n' ∉ escString s := by
  intro hmem
  rcases List.mem_cons.mp hmem with he | hm
  · exact absurd he (by decide)
  · rcases List.mem_append.mp hm with hf | hb
    · obtain ⟨c, _, hc⟩ := List.mem_flatMap.mp hf
      exact escChar_no_newline c hc
    · exact absurd hb (by decide)

/-- A newline is not a decimal digit character. -/
theorem newline_ne_digitChar (m : Nat) (hm : m < 10) :
    ('\n' : Char) ≠ Char.ofNat (48 + m) := by
  interval_cases m <;> decide

/-- Digit rendering never contains a newline. -/
theorem natDigitsAux_no_newline (fuel n : Nat) :
    '\n' ∉ natDigitsAux fuel n := by
  induction fuel generalizing n with
  | zero => simp [natDigitsAux]
  | succ k ih =>
      unfold natDigitsAux
      by_cases h : n < 10
      · simp only [if_pos h, List.mem_singleton]
        exact newline_ne_digitChar n h
      · simp only [if_neg h, List.mem_append, List.mem_singleton]
        rintro (hmem | he)
        · exact ih (n / 10) hmem
        · exact newline_ne_digitChar (n % 10) (Nat.mod_lt _ (by omega)) he

/-- Joining newline-free pieces with a newline-free separator stays
newline-free. -/
theorem joinSep_no_newline (sep : List Char) (hsep : '\n' ∉ sep)
    (xs : List (List Char)) (hxs : ∀ x ∈ xs, '\n' ∉ x) :
    '\n' ∉ joinSep sep xs := by
  induction xs with
  | nil => simp [joinSep]
  | cons x rest ih =>
      cases rest with
      | nil => simpa [joinSep] using hxs x (by simp)
      | cons y t =>
          have hx : '\n' ∉ x := hxs x (by simp)
          have hrest : '\n' ∉ joinSep sep (y :: t) :=
            ih (fun z hz => hxs z (by simp [hz]))
          intro hmem
          rw [show joinSep sep (x :: y :: t) =
            x ++ sep ++ joinSep sep (y :: t) from rfl] at hmem
          rcases List.mem_append.mp hmem with hm | hm
          · rcases List.mem_append.mp hm with hm2 | hm2
            · exact hx hm2
            · exact hsep hm2
          · exact hrest hm

/-- Rendered values never contain a raw newline. -/
theorem encVal_no_newline (v : JVal) : '\n' ∉ encVal v := by
  cases v with
  | jstr s => exact escString_no_newline s
  | jint n => exact natDigitsAux_no_newline _ _
  | jbool b => cases b <;> decide
  | jlist xs =>
      intro hmem
      rcases List.mem_cons.mp hmem with he | hm
      · exact absurd he (by decide)
      · rcases List.mem_append.mp hm with hj | hb
        · exact absurd hj (joinSep_no_newline _ (by decide) _
            (fun x hx => by
              obtain ⟨s, _, rfl⟩ := List.mem_map.mp hx
              exact escString_no_newline s))
        · exact absurd hb (by decide)

/-- The rendered entry object never contains a raw newline. -/
theorem encObj_no_newline (fields : List (String × JVal)) :
    '\n' ∉ encObj fields := by
  intro hmem
  rcases List.mem_cons.mp hmem with he | hm
  · exact absurd he (by decide)
  · rcases List.mem_append.mp hm with hj | hb
    · refine absurd hj (joinSep_no_newline _ (by decide) _ ?_)
      intro x hx
      obtain ⟨kv, _, rfl⟩ := List.mem_map.mp hx
      intro hmem2
      rcases List.mem_append.mp hmem2 with hm2 | hm2
      · rcases List.mem_append.mp hm2 with hm3 | hm3
        · exact escString_no_newline kv.1 hm3
        · exact absurd hm3 (by decide)
      · exact encVal_no_newline kv.2 hm2
    · exact absurd hb (by decide)

/-- C10 counterexample: at a concrete call the persisted keys are
`timestamp, user_role, query, docs_sensitivity, docs_sources,
response_length, guardrail_triggered` — the claimed AuditEntry fields
`role`, `sensitivities_touched` and `sources_touched` are absent, and
the sensitivity collection is a duplicate-carrying list (two retrieved
`public` documents), not a set of labels. -/
theorem log_access_fields_counterexample :
    ((log_access "2025-10-12T00:00:00" "analyst" "What was Q3 revenue?"
        [demoPublicDoc, demoPublicDoc] "Revenue was 18 billion.").map
          Prod.fst =
      ["timestamp", "user_role", "query", "docs_sensitivity",
       "docs_sources", "response_length", "guardrail_triggered"]) ∧
    "role" ∉ (log_access "2025-10-12T00:00:00" "analyst"
        "What was Q3 revenue?" [demoPublicDoc, demoPublicDoc]
        "Revenue was 18 billion.").map Prod.fst ∧
    "sensitivities_touched" ∉ (log_access "2025-10-12T00:00:00" "analyst"
        "What was Q3 revenue?" [demoPublicDoc, demoPublicDoc]
        "Revenue was 18 billion.").map Prod.fst ∧
    "sources_touched" ∉ (log_access "2025-10-12T00:00:00" "analyst"
        "What was Q3 revenue?" [demoPublicDoc, demoPublicDoc]
        "Revenue was 18 billion.").map Prod.fst ∧
    ("docs_sensitivity", JVal.jlist ["public", "public"]) ∈
      log_access "2025-10-12T00:00:00" "analyst" "What was Q3 revenue?"
        [demoPublicDoc, demoPublicDoc] "Revenue was 18 billion." := by
  decide

/-- C10 amended: every record `log_access` persists is one JSON object
per line — the appended text is the encoded object followed by exactly
one newline, which is its last character, so the file stays valid
line-delimited JSON — and its fields are exactly `timestamp` (string),
`user_role` (string), `query` (string), `docs_sensitivity` (list of the
retrieved documents' labels in order, duplicates allowed, default
`"unknown"`), `docs_sources` (list), `response_length` (int) and
`guardrail_triggered` (hard-coded `false`). -/
theorem log_access_fields_amended (now user_role query : String)
    (docs_accessed : List Doc) (response : String) :
    ((log_access now user_role query docs_accessed response).map Prod.fst =
      ["timestamp", "user_role", "query", "docs_sensitivity",
       "docs_sources", "response_length", "guardrail_triggered"]) ∧
    ("guardrail_triggered", JVal.jbool false) ∈
      log_access now user_role query docs_accessed response ∧
    ("docs_sensitivity", JVal.jlist
        (docs_accessed.map (fun d => d.sensitivity.getD "unknown"))) ∈
      log_access now user_role query docs_accessed response ∧
    (log_access_line now user_role query docs_accessed response).count '\n'
      = 1 ∧
    (log_access_line now user_role query docs_accessed response).getLast?
      = some '\n' := by
  refine ⟨rfl, by simp [log_access], by simp [log_access], ?_, ?_⟩
  · unfold log_access_line
    rw [List.count_append]
    rw [List.count_eq_zero_of_not_mem (encObj_no_newline _)]
    rfl
  · unfold log_access_line
    exact List.getLast?_concat _

/-! ## Public API (`ask`, agent.py lines 189-209) -/

/-- The closed role list of `ask` (agent.py line 200). -/
def valid_roles : List String := ["analyst", "product_manager", "executive"]

/-- The invalid-role message of `ask` (agent.py line 201). -/
def invalid_role_message (role : String) : String :=
  "❌ Invalid role: " ++ role ++
    ". Use \x27analyst\x27, \x27product_manager\x27, or \x27executive\x27"

/-- `ask` (agent.py lines 189-209).  The compiled graph run
(`agent.invoke`, which performs retrieval, generation and audit writes
and may not terminate — see the iteration-cap theorems) is the abstract
collaborator `invoke`, returning the final response text together with
the audit entries written during the run.  `ask` validates the role
first and returns the invalid-role message — a value, not an
exception — before consulting the collaborator. -/
def ask (invoke : String → String → String × List (List (String × JVal)))
    (question : String) (role : String) :
    String × List (List (String × JVal)) :=
  if role ∉ valid_roles then (invalid_role_message role, [])
  else invoke question role

/-- C9: for a role outside the closed list, `ask` returns the
caller-visible invalid-role message with an empty audit trace, and its
result does not depend on the retrieval/generation collaborator at all
(any two collaborators give the same answer), i.e. no retrieval, no
generation and no audit write happens. -/
theorem ask_invalid_role
    (invoke invoke2 : String → String → String × List (List (String × JVal)))
    (question role : String) (h : role ∉ valid_roles) :
    ask invoke question role = (invalid_role_message role, []) ∧
      ask invoke question role = ask invoke2 question role := by
  constructor <;> simp [ask, h]

theorem ask_invalid_role_witness :
    ask (fun _ _ => ("ok", [])) "test" "hacker" =
        (invalid_role_message "hacker", []) ∧
      ask (fun _ _ => ("ok", [])) "test" "hacker" =
        ask (fun q r => (q ++ r, [[("timestamp", JVal.jstr "t")]]))
          "test" "hacker" :=
  ask_invalid_role (fun _ _ => ("ok", []))
    (fun q r => (q ++ r, [[("timestamp", JVal.jstr "t")]]))
    "test" "hacker" (by decide)
